import Mathlib

/-!
Shallow embedding of the dev-camper-api repository (TypeScript / Express / Mongoose), covering
the components the claims address: the query-string → MongoDB filter translator, the pagination
metadata computation, the Course → Bootcamp averageCost aggregation hooks, the password-reset
token lifecycle, login/registration, DTO validation for bootcamps and users, and the protect /
authorize middleware.

Modelling conventions:
  * Mongoose documents become Lean structures carrying exactly the fields the embedded code
    reads or writes; collections become lists of documents.
  * JavaScript `undefined` on an optional field is `Option.none`.
  * `findByIdAndUpdate` is embedded with Mongoose's update-casting semantics: keys whose value
    is `undefined` are stripped from the update document before it is sent (this behaviour is
    mandatory since Mongoose 6, formerly the `omitUndefined` option), so an update entry whose
    value is `none` leaves the stored field untouched; unsetting a field requires `$unset`,
    which this codebase never uses.
  * bcrypt hashing/comparison, sha256, and jwt signing/verification are abstracted as function
    parameters; theorems instantiate them with concrete functions where a witness is needed.
  * Millisecond timestamps (`Date.now()`, `new Date(...)`) are `Int`.
-/

namespace DevCamper

/-! ### Query-filter translator

Embeds the filtering section shared by `getBootcamps` (bootcamps controller, asyncHandler
version, lines 17–151) and `getCourses` (courses controller, lines 249–378).  The controller
copies `req.query`, deletes the reserved keys `select`, `sort`, `page`, `limit`, stringifies
the rest with `JSON.stringify`, runs
`queryStr.replace(/\b(gt|gte|lt|lte|in)\b/g, m => "$" + m)`, and `JSON.parse`s the result.

A query value is either a plain string (`field=v`) or, for Express bracket syntax
(`field[gt]=5`), an object of operator/value pairs. -/

/-- The operator tokens recognised by the replace regex, in source order. -/
def mongoOps : List String := ["gt", "gte", "lt", "lte", "in"]

/-- JavaScript regex word character (`\w` = `[A-Za-z0-9_]`); `\b` is a transition between a
word character and a non-word character (or the start/end of the string). -/
def isWordChar (c : Char) : Bool := c.isAlphanum || c = '_'

/-- Emit one maximal run of word characters: if the run is exactly one of the five operator
tokens the regex replaces it by `"$" + match`, otherwise it is left alone.  (The JS regex
`/\b(gt|gte|lt|lte|in)\b/g` matches precisely the maximal `\w`-runs equal to a token: a
boundary is required on both sides, so a token embedded in a longer run never matches.) -/
def emitRun (run : List Char) : List Char :=
  if mongoOps.contains (String.mk run) then '$' :: run else run

/-- Worker for `replaceOperatorTokens`: accumulates the current word-character run and flushes
it through `emitRun` at every non-word character and at the end of the input. -/
def replaceGo (cur : List Char) : List Char → List Char
  | [] => emitRun cur
  | c :: rest =>
    if isWordChar c then replaceGo (cur ++ [c]) rest
    else emitRun cur ++ c :: replaceGo [] rest

/-- The line `queryStr.replace(/\b(gt|gte|lt|lte|in)\b/g, (match) => `$`+match)` as a string
transformer. -/
def replaceOperatorTokens (s : String) : String := String.mk (replaceGo [] s.data)

/-- A value of one query parameter after Express's query parsing: `field=v` yields `str v`,
`field[op]=v` (bracket syntax) yields `obj [(op, v)]`, possibly with several pairs. -/
inductive QueryVal where
  | str (s : String)
  | obj (pairs : List (String × String))
deriving DecidableEq

/-- The reserved parameter names deleted from the filter set (`removeFields` in the source). -/
def removeFields : List String := ["select", "sort", "page", "limit"]

/-- `reqQuery` after `removeFields.forEach((param) => delete reqQuery[param])`. -/
def reqQueryAfterRemove (q : List (String × QueryVal)) : List (String × QueryVal) :=
  q.filter fun kv => !removeFields.contains kv.1

/-- Effect of the stringify/replace/parse pipeline on a single query value.  The tokens consist
solely of word characters while every JSON syntax character (`"{}:,[]\`) is a non-word
character, so the replace acts independently inside each quoted key and each quoted string
value of the serialized JSON. -/
def replaceValTokens : QueryVal → QueryVal
  | .str s => .str (replaceOperatorTokens s)
  | .obj ps => .obj (ps.map fun p => (replaceOperatorTokens p.1, replaceOperatorTokens p.2))

/-- The translated filter finally handed to `Model.find(...)`:
`JSON.parse(JSON.stringify(reqQuery).replace(/\b(gt|gte|lt|lte|in)\b/g, m => "$"+m))`. -/
def translateFilter (q : List (String × QueryVal)) : List (String × QueryVal) :=
  (reqQueryAfterRemove q).map fun kv => (replaceOperatorTokens kv.1, replaceValTokens kv.2)

/-- JSON rendering of a string (keys/values here contain no characters needing escapes). -/
def jsonQuote (s : String) : String := "\"" ++ s ++ "\""

/-- JSON rendering of one operator/value pair of a bracket-syntax object. -/
def stringifyPair (p : String × String) : String := jsonQuote p.1 ++ ":" ++ jsonQuote p.2

/-- JSON rendering of a query value, as `JSON.stringify` would produce it. -/
def stringifyVal : QueryVal → String
  | .str s => jsonQuote s
  | .obj ps => "\x7b" ++ String.intercalate "," (ps.map stringifyPair) ++ "\x7d"

/-- JSON rendering of the whole query object, as `JSON.stringify(reqQuery)` would produce it. -/
def stringifyQuery (q : List (String × QueryVal)) : String :=
  "\x7b" ++ String.intercalate "," (q.map fun kv => jsonQuote kv.1 ++ ":" ++ stringifyVal kv.2) ++ "\x7d"

/-! ### Pagination metadata

Embeds `bootcampService.getFilteredBootcamps` (bootcamp.service.ts lines 134–168): the service
computes `endIndex = page * limit`, then sets `next = (page+1, limit)` iff `endIndex <
totalCount` and `prev = (page-1, limit)` iff `skip > 0`; both fields stay `undefined`
otherwise.  The controller computes `skip = (page - 1) * limit` with defaults `page = 1`,
`limit = 25`. -/

/-- One entry of the pagination metadata (`\x7b page, limit \x7d`). -/
structure PageRef where
  page : Int
  limit : Int
deriving DecidableEq

/-- The `Pagination` result object (`next`/`prev` both `undefined` by default). -/
structure Pagination where
  next : Option PageRef
  prev : Option PageRef
deriving DecidableEq

/-- Lines 134–168 of `getFilteredBootcamps` (identical in `getAllBootcamps`). -/
def buildPagination (page limit skip totalCount : Int) : Pagination :=
  let endIndex := page * limit
  { next := if endIndex < totalCount then some ⟨page + 1, limit⟩ else none
    prev := if skip > 0 then some ⟨page - 1, limit⟩ else none }

/-! ### Course documents and the averageCost aggregation hooks (course.model.ts) -/

/-- A Course document, restricted to the fields the aggregation reads. -/
structure CourseDoc where
  id : Nat
  bootcamp : Nat
  tuition : Rat
deriving DecidableEq

/-- A Bootcamp document, restricted to the fields used by the embedded operations.
`averageCost` is the derived field maintained by the Course hooks. -/
structure BootcampDoc where
  id : Nat
  user : Nat
  name : String
  averageCost : Option Rat := none
deriving DecidableEq

/-- The bootcamp and course collections. -/
structure CampDB where
  bootcamps : List BootcampDoc
  courses : List CourseDoc
deriving DecidableEq

/-- The aggregation pipeline of `Course.getAverageCost`: `$match` the courses of the bootcamp,
`$group` with `averageCost: \x7b $avg: "$tuition" \x7d`.  An empty match produces no group
(`obj.length == 0`), embedded as `none`. -/
def aggregateAverageCost (courses : List CourseDoc) (bootcampId : Nat) : Option Rat :=
  let matched := courses.filter fun c => c.bootcamp = bootcampId
  if matched.isEmpty then none
  else some ((matched.map (fun c => c.tuition)).sum / (matched.length : Rat))

/-- `Bootcamp.findByIdAndUpdate(bootcampId, \x7b averageCost: u \x7d)`.  `u = none` models the
JavaScript value `undefined`: Mongoose strips keys whose value is `undefined` out of an update
document before sending it (mandatory since Mongoose 6, formerly `omitUndefined`), so such an
update changes nothing — clearing the field would require `$unset`. -/
def findByIdAndUpdateAverageCost (bs : List BootcampDoc) (bootcampId : Nat) (u : Option Rat) :
    List BootcampDoc :=
  bs.map fun b =>
    if b.id = bootcampId then
      match u with
      | none => b
      | some a => { b with averageCost := some a }
    else b

/-- `Course.getAverageCost(bootcampId)` (course.model.ts lines 90–147): when no course of the
bootcamp remains the update document is `\x7b averageCost: undefined \x7d`; otherwise the
literal (unrounded) average `avg` is stored — the rounded value `roundedAvg` is computed but
unused. -/
def getAverageCost (db : CampDB) (bootcampId : Nat) : CampDB :=
  match aggregateAverageCost db.courses bootcampId with
  | none =>
    { db with bootcamps := findByIdAndUpdateAverageCost db.bootcamps bootcampId none }
  | some avg =>
    { db with bootcamps := findByIdAndUpdateAverageCost db.bootcamps bootcampId (some avg) }

/-- `courseService.addCourse` saving a new Course document followed by the
`courseSchema.post("save")` hook, which recomputes the parent bootcamp's average. -/
def createCourse (db : CampDB) (c : CourseDoc) : CampDB :=
  getAverageCost { db with courses := db.courses ++ [c] } c.bootcamp

/-- `courseService.deleteCourseById` (`Course.findByIdAndDelete`) followed by the
`courseSchema.post("findOneAndDelete")` hook: when a document was deleted the average of its
bootcamp is recomputed over the now-smaller collection; when nothing matched the hook returns
immediately (`doc` is null). -/
def deleteCourseById (db : CampDB) (id : Nat) : CampDB :=
  match db.courses.find? (fun c => decide (c.id = id)) with
  | none => db
  | some doc =>
    let db1 : CampDB := { db with courses := db.courses.eraseP (fun c => decide (c.id = id)) }
    getAverageCost db1 doc.bootcamp

/-! ### User documents and the auth flows (user.model.ts, user.service.ts, auth.controller.ts) -/

/-- A User document with the fields the embedded flows touch.  `password` holds the bcrypt
hash (the pre-save hook never stores plaintext). -/
structure UserDoc where
  id : Nat
  name : String
  email : String
  role : String
  password : String
  resetPasswordToken : Option String := none
  resetPasswordExpire : Option Int := none
deriving DecidableEq

/-- `userService.getUserByEmail`: `User.findOne(\x7b email \x7d)` (the `includePassword` flag
only widens the projection; the matching document is the same). -/
def getUserByEmail (us : List UserDoc) (email : String) : Option UserDoc :=
  us.find? fun u => decide (u.email = email)

/-- `User.findByIdAndUpdate(userId, \x7b resetPasswordToken: tok, resetPasswordExpire: e \x7d)`.
As with `findByIdAndUpdateAverageCost`, an argument of `none` models passing the JavaScript
value `undefined`, which Mongoose strips from the update document — the stored field is then
left untouched. -/
def findByIdAndUpdateResetFields (us : List UserDoc) (userId : Nat)
    (tok : Option String) (expire : Option Int) : List UserDoc :=
  us.map fun u =>
    if u.id = userId then
      { u with
        resetPasswordToken := (match tok with | none => u.resetPasswordToken | some t => some t)
        resetPasswordExpire := (match expire with | none => u.resetPasswordExpire | some e => some e) }
    else u

/-- `userService.setPasswordResetFields` (user.service.ts lines 219–230): persists the hashed
token and expiry via `findByIdAndUpdate`. -/
def setPasswordResetFields (us : List UserDoc) (userId : Nat) (tok : String) (expire : Int) :
    List UserDoc :=
  findByIdAndUpdateResetFields us userId (some tok) (some expire)

/-- `userService.clearPasswordResetFields` (user.service.ts lines 233–239):
`findByIdAndUpdate(userId, \x7b resetPasswordToken: undefined, resetPasswordExpire: undefined \x7d)`.
Both values are `undefined`, hence stripped by Mongoose before the update is sent. -/
def clearPasswordResetFields (us : List UserDoc) (userId : Nat) : List UserDoc :=
  findByIdAndUpdateResetFields us userId none none

/-- `userSchema.methods.getResetPasswordToken` (user.model.ts lines 220–237): generates a
random token (here a parameter), stores its sha256 hash in `resetPasswordToken`, sets
`resetPasswordExpire` to `Date.now() + 10 * 60 * 1000`, and returns the plaintext token. -/
def getResetPasswordToken (sha256 : String → String) (now : Int) (resetToken : String)
    (u : UserDoc) : UserDoc × String :=
  ({ u with
      resetPasswordToken := some (sha256 resetToken)
      resetPasswordExpire := some (now + 10 * 60 * 1000) },
   resetToken)

/-- Outcome of the forgot-password controller: HTTP status, body text, resulting users
collection, and the plaintext token that was put in the email (if one was sent). -/
structure ForgotPasswordResult where
  status : Nat
  body : String
  users : List UserDoc
  emailedToken : Option String
deriving DecidableEq

/-- `forgotPassword` (auth.controller.ts lines 236–298): look the user up by email (404 when
absent), generate the reset token on the in-memory document, persist the hashed token and
expiry via `setPasswordResetFields`, email the plaintext token; when `sendEmail` rejects, call
`clearPasswordResetFields` and answer 500. -/
def forgotPassword (sha256 : String → String) (now : Int) (randomToken : String)
    (emailSendSucceeds : Bool) (us : List UserDoc) (email : String) : ForgotPasswordResult :=
  match getUserByEmail us email with
  | none => ⟨404, "User with email = " ++ email ++ " not found", us, none⟩
  | some user =>
    let gen := getResetPasswordToken sha256 now randomToken user
    let us1 := setPasswordResetFields us user.id
      (gen.1.resetPasswordToken.getD "") (gen.1.resetPasswordExpire.getD 0)
    if emailSendSucceeds then
      ⟨200, "Email sent", us1, some gen.2⟩
    else
      ⟨500, "Email could not be sent", clearPasswordResetFields us1 user.id, none⟩

/-- `userService.getUserByValidResetToken` (user.service.ts lines 209–216):
`User.findOne(\x7b resetPasswordToken, resetPasswordExpire: \x7b $gt: new Date() \x7d \x7d)` —
the stored hash must equal the submitted hash and the stored expiry must be strictly in the
future; a document without these fields matches neither condition. -/
def getUserByValidResetToken (us : List UserDoc) (resetPasswordToken : String) (now : Int) :
    Option UserDoc :=
  us.find? fun u =>
    decide (u.resetPasswordToken = some resetPasswordToken) &&
    (match u.resetPasswordExpire with
     | some e => decide (now < e)
     | none => false)

/-- `userService.updatePasswordById` (user.service.ts lines 189–200): assigns the new password
on the document and saves it; the `pre("save")` hook bcrypt-hashes it. -/
def updatePasswordById (bcryptHash : String → String) (us : List UserDoc) (id : Nat)
    (newPassword : String) : List UserDoc :=
  us.map fun u => if u.id = id then { u with password := bcryptHash newPassword } else u

/-- Outcome of the reset-password controller: HTTP status, the error message when the request
is rejected, and the resulting users collection. -/
structure ResetPasswordResult where
  status : Nat
  error : Option String
  users : List UserDoc
deriving DecidableEq

/-- `resetPassword` (auth.controller.ts lines 302–362): hash the submitted route token with
sha256, look up a user via `getUserByValidResetToken`; no match → 400 "Invalid or expired
token" with no state change; on a match, set the new password (re-hash via the save hook),
clear the reset fields, and answer 200. -/
def resetPassword (sha256 bcryptHash : String → String) (now : Int)
    (us : List UserDoc) (resettoken newPassword : String) : ResetPasswordResult :=
  if resettoken = "" then
    ⟨400, some "Bad Request: resettoken is not in query parameters", us⟩
  else
    let hashed := sha256 resettoken
    match getUserByValidResetToken us hashed now with
    | none => ⟨400, some "Invalid or expired token", us⟩
    | some user =>
      if newPassword = "" then ⟨400, some "Enter a new password", us⟩
      else
        let us1 := updatePasswordById bcryptHash us user.id newPassword
        let us2 := clearPasswordResetFields us1 user.id
        ⟨200, none, us2⟩

/-- A login response as the client observes it: status, `success` flag, `error` string, and
the token (the success path answers `\x7b success: true, token \x7d` via `sendTokenResponse`). -/
structure LoginResponse where
  status : Nat
  success : Bool
  error : Option String
  token : Option String
deriving DecidableEq

/-- `login` (auth.controller.ts lines 70–114): look the user up by email with the password
projected in; answer 401 `"Invalid credentials"` when no user matches, compare the submitted
password against the stored hash with `bcrypt.compare` (`matchPassword`), answer the same 401
on mismatch, and issue a signed token on success. -/
def login (bcryptCompare : String → String → Bool) (signJwt : Nat → String)
    (us : List UserDoc) (email password : String) : LoginResponse :=
  match getUserByEmail us email with
  | none => ⟨401, false, some "Invalid credentials", none⟩
  | some user =>
    if bcryptCompare password user.password then
      ⟨200, true, none, some (signJwt user.id)⟩
    else
      ⟨401, false, some "Invalid credentials", none⟩

/-! ### DTO validation (bootcamp.dto.ts, user.dto.ts) and the affected controllers -/

/-- JavaScript `String.prototype.trim()`: remove leading and trailing whitespace. -/
def jsTrim (s : String) : String :=
  String.mk (((s.data.dropWhile Char.isWhitespace).reverse.dropWhile Char.isWhitespace).reverse)

/-- The allowed career values (`CAREER_VALUES`). -/
def careerValues : List String :=
  ["Web Development", "Mobile Development", "UI/UX", "Data Science", "Business", "Other"]

/-- The message thrown for an invalid career value (bootcamp.dto.ts lines 129–135). -/
def invalidCareerMessage (c : String) : String :=
  "Invalid career: \"" ++ c ++ "\". Must be one of: " ++ String.intercalate ", " careerValues

/-- The per-element career loop of the `CreateBootcampDTO` constructor: each entry must be in
the enum, the first offending entry aborts with `invalidCareerMessage`. -/
def checkCareers : List String → Except String Unit
  | [] => Except.ok ()
  | c :: rest =>
    if c ∈ careerValues then checkCareers rest else Except.error (invalidCareerMessage c)

/-- A create-bootcamp request body restricted to the constructor's required fields.  The
optional-field validations of `CreateBootcampDTO` (website, phone, email, flags — source lines
144–235) run only when those keys are present; the requests embedded here omit them, so those
branches are no-ops and are not modelled. -/
structure BootcampBody where
  name : Option String := none
  description : Option String := none
  address : Option String := none
  careers : Option (List String) := none

/-- The validated value object produced by `CreateBootcampDTO`. -/
structure CreateBootcampDTORec where
  name : String
  description : String
  address : String
  careers : List String
deriving DecidableEq

/-- The required-field part of the `CreateBootcampDTO` constructor (bootcamp.dto.ts lines
76–142): `isNonEmptyString` then trim and max-length for name (50) and description (165),
non-empty address, non-empty careers array, then the per-element enum check. -/
def mkCreateBootcampDTO (b : BootcampBody) : Except String CreateBootcampDTORec :=
  match b.name with
  | none => Except.error "Please add a name"
  | some name0 =>
  if (jsTrim name0).length = 0 then Except.error "Please add a name"
  else if (jsTrim name0).length > 50 then Except.error "Name can't be longer than 50 characters"
  else match b.description with
  | none => Except.error "Please add a description"
  | some desc0 =>
  if (jsTrim desc0).length = 0 then Except.error "Please add a description"
  else if (jsTrim desc0).length > 165 then
    Except.error "Description can't be longer than 165 characters"
  else match b.address with
  | none => Except.error "Please add an address"
  | some addr0 =>
  if (jsTrim addr0).length = 0 then Except.error "Please add an address"
  else match b.careers with
  | none => Except.error "Please add at least one career"
  | some cs =>
  if cs.isEmpty then Except.error "Please add at least one career"
  else match checkCareers cs with
  | Except.error e => Except.error e
  | Except.ok _ => Except.ok ⟨jsTrim name0, jsTrim desc0, jsTrim addr0, cs⟩

/-- The response sent for POST /api/v1/bootcamps by the try/catch version of `addBootcamp`
(bootcamps.controller.ts) together with the terminal `errorHandler`. -/
structure AddBootcampResponse where
  status : Nat
  success : Bool
  error : Option String
  created : Option CreateBootcampDTORec
deriving DecidableEq

/-- A JavaScript error value as the terminal error middleware inspects it: each property may
be present or absent.  A plain `Error` (including a TypeError or a DTO throw) has a `message`
and neither `statusCode` nor `error`; an `ErrorResponse` (utils/errorResponse.ts) does NOT
extend `Error` — its constructor stores the supplied text in `this.error` and the HTTP code in
`this.statusCode`, and it has no `message` property at all. -/
structure JsErr where
  message : Option String
  statusCode : Option Nat
  error : Option String
deriving DecidableEq

/-- `new ErrorResponse(text, statusCode)`: text lands in `.error`, never in `.message`. -/
def mkErrorResponse (text : String) (statusCode : Nat) : JsErr :=
  ⟨none, some statusCode, some text⟩

/-- A plain thrown `Error`/`TypeError` with the given message (no statusCode, no error). -/
def mkJsError (message : String) : JsErr := ⟨some message, none, none⟩

/-- `errorHandler` (error.middleware.ts): `message = err?.message || "Server Error"` and
`statusCode = err?.statusCode || 500` (a missing, empty or zero property falls back).  The
Mongo duplicate-key branch (code 11000, inspected on `err?.error ?? err`) is unreachable for
the errors produced by the flows embedded here, which are never `MongoServerError`s. -/
def errorHandler (err : JsErr) : Nat × String :=
  let message := match err.message with
    | none => "Server Error"
    | some m => if m = "" then "Server Error" else m
  let sc := match err.statusCode with | none => 500 | some 0 => 500 | some n => n
  (sc, message)

/-- `addBootcamp` (bootcamps.controller.ts lines 74–118): the DTO constructor runs in a
try/catch whose catch discards the thrown message and forwards
`new ErrorResponse("Bad Request (POST /api/v1/bootcamps)", 400)` to the error middleware;
since `ErrorResponse` carries no `message` property, the middleware renders the body text as
"Server Error" (with the 400 status preserved).  On success the service saves the bootcamp
and the controller answers 201. -/
def addBootcampCtrl (body : BootcampBody) : AddBootcampResponse :=
  match mkCreateBootcampDTO body with
  | Except.error _ =>
    let e := errorHandler (mkErrorResponse "Bad Request (POST /api/v1/bootcamps)" 400)
    ⟨e.1, false, some e.2, none⟩
  | Except.ok dto => ⟨201, true, none, some dto⟩

/-- Substring test used to state whether an error message names a value. -/
def containsSubstring (needle haystack : String) : Bool :=
  (List.range (haystack.data.length + 1)).any fun i =>
    needle.data.isPrefixOf (haystack.data.drop i)

/-- Result of the ownership-checking `addBootcamp` (part of the bootcamps controller that
consults the logged-in user, lines 238–278). -/
structure AddBootcampOwnResult where
  status : Nat
  error : Option String
  bootcamps : List BootcampDoc
deriving DecidableEq

/-- `addBootcamp` with the ownership check: the controller sets `req.body.user = req.user.id`,
counts the requester's bootcamps via `getFilteredBootcamps(\x7b user: req.user.id \x7d, ...,
\x7b page: 1, limit: 0, skip: 0 \x7d)` (limit 0 → no limit applied, every owned bootcamp is
returned), and rejects with 400 when the requester already owns one and is not an admin —
before the DTO is even constructed.  On the create path the validated document is saved with
the requester as owner (`bootcampService.createBootcamp`, `user: dto.user`); a DTO throw
escapes the asyncHandler to the terminal error handler as a plain Error (no statusCode → 500). -/
def addBootcampWithOwnershipCheck (db : List BootcampDoc) (newId userId : Nat) (role : String)
    (body : BootcampBody) : AddBootcampOwnResult :=
  let owned := db.filter fun b => decide (b.user = userId)
  if owned.length > 0 ∧ role ≠ "admin" then
    ⟨400, some ("User with id " ++ toString userId ++ " has already published a bootcamp"), db⟩
  else
    match mkCreateBootcampDTO body with
    | Except.error e =>
      ⟨(errorHandler (mkJsError e)).1, some (errorHandler (mkJsError e)).2, db⟩
    | Except.ok dto => ⟨201, none, db ++ [⟨newId, userId, dto.name, none⟩]⟩

/-- A create-user request body (user DTO file). -/
structure RegisterBody where
  name : Option String := none
  email : Option String := none
  role : Option String := none
  password : Option String := none

/-- The validated value object produced by `CreateUserDTO`. -/
structure CreateUserDTORec where
  name : String
  email : String
  role : Option String
  password : String
deriving DecidableEq

/-- The email regex `/^[^\s@]+@[^\s@]+\.[^\s@]+$/` as a Boolean test: exactly one `@`, a
non-empty local part without whitespace, a domain part without whitespace containing a dot
that is neither its first nor its last character (the `[^\s@]+` pieces around `\.` may
themselves contain further dots). -/
def emailRegexTest (s : String) : Bool :=
  match s.data.splitOn '@' with
  | [localPart, domainPart] =>
    !localPart.isEmpty
    && localPart.all (fun c => !c.isWhitespace)
    && domainPart.all (fun c => !c.isWhitespace)
    && (domainPart.drop 1).dropLast.contains '.'
  | _ => false

/-- The role validation of the `CreateUserDTO` constructor (runs only when a role key is
present; only "user" and "publisher" are accepted). -/
def validateRole : Option String → Except String (Option String)
  | none => Except.ok none
  | some r =>
    if (jsTrim r).length = 0 then
      Except.error "If provided, role must be a non-empty string: \"user\" or \"publisher\""
    else if r ≠ "user" ∧ r ≠ "publisher" then
      Except.error "Please add a valid role for the user: \"user\" or \"publisher\""
    else Except.ok (some r)

/-- The `CreateUserDTO` constructor: non-empty name trimmed to at most 50 characters, email
matching the regex (trimmed), optional role, non-empty password stored untrimmed. -/
def mkCreateUserDTO (b : RegisterBody) : Except String CreateUserDTORec :=
  match b.name with
  | none => Except.error "Please add a name"
  | some name0 =>
  if (jsTrim name0).length = 0 then Except.error "Please add a name"
  else if (jsTrim name0).length > 50 then Except.error "Name can't be longer than 50 characters"
  else match b.email with
  | none => Except.error "Email must be a non-empty string"
  | some email0 =>
  if (jsTrim email0).length = 0 then Except.error "Email must be a non-empty string"
  else if !emailRegexTest (jsTrim email0) then Except.error "Please add a valid email"
  else match validateRole b.role with
  | Except.error e => Except.error e
  | Except.ok role =>
  match b.password with
  | none => Except.error "Please enter a password"
  | some pw =>
  if (jsTrim pw).length = 0 then Except.error "Please enter a password"
  else Except.ok ⟨jsTrim name0, jsTrim email0, role, pw⟩

/-- The hydrated User document as `save()` resolves it.  The `select: false` on the password
path applies only to query projections (find / findById / findOne); it does not remove the
field from a document constructed in memory and saved, so the saved document still carries the
bcrypt-hashed password — modelled by the `password : Option String` field being `some hash`. -/
structure SavedUser where
  id : Nat
  name : String
  email : String
  role : String
  password : Option String
deriving DecidableEq

/-- `userService.createUser` (user.service.ts lines 13–31): `new User(...)` applies the schema
default role "user" when the DTO carries none; `save()` runs the `pre("save")` hook, which
bcrypt-hashes the password, and resolves with the hydrated document itself; a signed JWT is
created from the saved id. -/
def createUser (bcryptHash : String → String) (signJwt : Nat → String) (newId : Nat)
    (dto : CreateUserDTORec) : SavedUser × String :=
  (⟨newId, dto.name, dto.email, dto.role.getD "user", some (bcryptHash dto.password)⟩,
   signJwt newId)

/-- The JSON body answered by POST /api/v1/auth/register. -/
structure RegisterResponse where
  status : Nat
  success : Bool
  user : Option SavedUser
  token : Option String
  error : Option String
deriving DecidableEq

/-- `register` (auth.controller.ts lines 44–68): validate the body through `CreateUserDTO`
(a throw escapes the asyncHandler to the terminal error handler; a plain Error carries no
statusCode, so the response is a 500), create the user, and answer 201 with
`\x7b success, msg, user, token \x7d` where `user` is the saved document. -/
def register (bcryptHash : String → String) (signJwt : Nat → String) (newId : Nat)
    (body : RegisterBody) : RegisterResponse :=
  match mkCreateUserDTO body with
  | Except.error e =>
    let h := errorHandler (mkJsError e)
    ⟨h.1, false, none, none, some h.2⟩
  | Except.ok dto =>
    let created := createUser bcryptHash signJwt newId dto
    ⟨201, true, some created.1, some created.2, none⟩

/-! ### protect / authorize middleware and GET /auth/me -/

/-- Outcome of the `protect` middleware: either an early 401 response or control passed to the
next handler with `req.user` attached (possibly null). -/
inductive ProtectOutcome where
  | reject (status : Nat) (error : String)
  | proceed (user : Option UserDoc)
deriving DecidableEq

/-- `protect` (auth middleware lines 32–87): take the token from an Authorization header
starting with "Bearer" (`header.split(" ")[1]`) or else from the token cookie; 401 when no
token is found or `jwt.verify` fails; otherwise `req.user = await User.findById(decoded.id)` —
which is null when no such user exists — and `next()` is invoked with no null-check.
`verify` abstracts `jwt.verify` + the payload-id extraction: `some id` for a validly signed
token embedding `id`, `none` for an invalid token. -/
def protect (verify : String → Option Nat) (users : List UserDoc)
    (authHeader : Option String) (cookieToken : Option String) : ProtectOutcome :=
  let token : Option String :=
    match authHeader with
    | some h =>
      if "Bearer".data.isPrefixOf h.data then ((h.data.splitOn ' ').map String.mk)[1]?
      else cookieToken
    | none => cookieToken
  match token with
  | none => ProtectOutcome.reject 401 "Not authorized to access this route"
  | some t =>
    match verify t with
    | none => ProtectOutcome.reject 401 "Not authorized to access this route"
    | some id => ProtectOutcome.proceed (users.find? fun u => decide (u.id = id))

/-- `getMe` (auth.controller.ts lines 117–127): reads `req.user.id` with no null check — when
`protect` attached null, the property access throws a TypeError (Node message: Cannot read
properties of null, reading id), embedded as the `Except.error` case; with a non-null user it
answers 200 with the user fetched by id. -/
def getMe (users : List UserDoc) (reqUser : Option UserDoc) :
    Except String (Nat × Option UserDoc) :=
  match reqUser with
  | none => Except.error "Cannot read properties of null (reading id)"
  | some u => Except.ok (200, users.find? fun v => decide (v.id = u.id))

/-- The body of a GET /auth/me response: either the data payload or an error message. -/
inductive GetMeBody where
  | data (user : Option UserDoc)
  | err (message : String)
deriving DecidableEq

/-- A terminal HTTP response for the GET /auth/me route. -/
structure RouteResponse where
  status : Nat
  body : GetMeBody
deriving DecidableEq

/-- GET /api/v1/auth/me end to end: `protect` then `getMe`.  A throw inside the handler is
forwarded to the terminal error middleware.  Modelled from the spec: the `asyncHandler`
wrapper (middleware/async.middleware.js, whose source is not among the files) catches the
rejected handler and funnels the error into `errorHandler` — "All errors funnel through a
single terminal handler that normalizes them into the standard envelope"; a plain TypeError
carries no statusCode, so `errorHandler` answers 500. -/
def getMeRoute (verify : String → Option Nat) (users : List UserDoc)
    (authHeader cookieToken : Option String) : RouteResponse :=
  match protect verify users authHeader cookieToken with
  | ProtectOutcome.reject s e => ⟨s, GetMeBody.err e⟩
  | ProtectOutcome.proceed ru =>
    match getMe users ru with
    | Except.error m =>
      ⟨(errorHandler (mkJsError m)).1, GetMeBody.err (errorHandler (mkJsError m)).2⟩
    | Except.ok r => ⟨r.1, GetMeBody.data r.2⟩

/-- Outcome of the `authorize` role guard for a request that passed `protect`. -/
inductive AuthorizeOutcome where
  | forbidden (status : Nat) (error : String)
  | allowed
deriving DecidableEq

/-- `authorize` (auth middleware lines 92–107): reads `req.user.role` with no null check — a
null user makes the property access throw a TypeError; otherwise 403 when the role is not in
the allowed list, else control passes on. -/
def authorize (roles : List String) (reqUser : Option UserDoc) :
    Except String AuthorizeOutcome :=
  match reqUser with
  | none => Except.error "Cannot read properties of null (reading role)"
  | some u =>
    if roles.contains u.role then Except.ok AuthorizeOutcome.allowed
    else Except.ok (AuthorizeOutcome.forbidden 403
      ("User role " ++ u.role ++ " is unauthorized to access this route"))

end DevCamper

deriving instance DecidableEq for Except

namespace DevCamper

/-! ### Theorems settling the claims -/

/-- Each of the five operator tokens is rewritten to its `$`-prefixed MongoDB operator by the
replace regex. -/
theorem replaceOperatorTokens_mongoOp : ∀ op ∈ mongoOps, replaceOperatorTokens op = "$" ++ op := by
  decide

/-- Claim C1: for every query whose filter part (after the reserved keys are removed) contains
a bracket-syntax entry `field[op]=v` with `op` among gt, gte, lt, lte, in, the translated
filter keeps an entry for that field whose value is an operator object containing the
`$`-prefixed operator — a comparison, not an equality match.  (The hypothesis on the field
name says that the replace leaves it unchanged, which holds for every name that is not itself
a maximal word-run equal to an operator token.)  The last conjunct checks the pipeline at the
string level on the spec's example `field[gt]=5`. -/
theorem translateFilter_rewrites_comparison_operators
    (q : List (String × QueryVal)) (f op v : String) (kvs : List (String × String))
    (hop : op ∈ mongoOps)
    (hf : (f, QueryVal.obj kvs) ∈ reqQueryAfterRemove q)
    (hv : (op, v) ∈ kvs)
    (hfield : replaceOperatorTokens f = f) :
    (f, QueryVal.obj (kvs.map fun p => (replaceOperatorTokens p.1, replaceOperatorTokens p.2)))
        ∈ translateFilter q
    ∧ ("$" ++ op, replaceOperatorTokens v)
        ∈ kvs.map (fun p => (replaceOperatorTokens p.1, replaceOperatorTokens p.2))
    ∧ replaceOperatorTokens (stringifyQuery [("averageCost", QueryVal.obj [("gt", "5")])])
        = stringifyQuery (translateFilter [("averageCost", QueryVal.obj [("gt", "5")])]) := by
  refine ⟨?_, ?_, by decide⟩
  · have h := List.mem_map_of_mem
      (fun kv => (replaceOperatorTokens kv.1, replaceValTokens kv.2)) hf
    simpa [translateFilter, replaceValTokens, hfield] using h
  · have h := List.mem_map_of_mem
      (fun p => (replaceOperatorTokens p.1, replaceOperatorTokens p.2)) hv
    simpa [replaceOperatorTokens_mongoOp op hop] using h

/-- Witness for C1: the query `averageCost[gt]=5&select=name` translates to a filter whose
`averageCost` entry carries the `$gt` operator object. -/
theorem translateFilter_rewrites_comparison_operators_witness :
    ("averageCost", QueryVal.obj [("$gt", "5")])
      ∈ translateFilter
          [("averageCost", QueryVal.obj [("gt", "5")]), ("select", QueryVal.str "name")] := by
  exact (translateFilter_rewrites_comparison_operators
    [("averageCost", QueryVal.obj [("gt", "5")]), ("select", QueryVal.str "name")]
    "averageCost" "gt" "5" [("gt", "5")]
    (by decide) (by decide) (by decide) (by decide)).1

/-- Claim C2: `next = (page+1, limit)` is present iff `page*limit < totalCount`; `prev =
(page-1, limit)` is present iff `skip > 0`; both are absent otherwise; and with `limit = 10`,
`totalCount = 25`, `skip = (page-1)*limit`, page 1 has only `next = (2,10)` and page 3 has
only `prev = (2,10)`. -/
theorem pagination_next_prev_presence (page limit skip totalCount : Int) :
    ((buildPagination page limit skip totalCount).next = some ⟨page + 1, limit⟩
        ↔ page * limit < totalCount)
    ∧ ((buildPagination page limit skip totalCount).prev = some ⟨page - 1, limit⟩ ↔ skip > 0)
    ∧ (¬ page * limit < totalCount → (buildPagination page limit skip totalCount).next = none)
    ∧ (¬ skip > 0 → (buildPagination page limit skip totalCount).prev = none)
    ∧ buildPagination 1 10 ((1 - 1) * 10) 25 = ⟨some ⟨2, 10⟩, none⟩
    ∧ buildPagination 3 10 ((3 - 1) * 10) 25 = ⟨none, some ⟨2, 10⟩⟩ := by
  refine ⟨?_, ?_, ?_, ?_, by decide, by decide⟩ <;>
  · simp only [buildPagination]
    split <;> simp_all

/-- Claim C3, evaluated at the failing input: on a bootcamp with no other courses, creating a
course with tuition 8000 stores the (unrounded) average 8000, but deleting that course leaves
`averageCost = 8000` even though the aggregation over the now-empty course set yields nothing —
the hook's `findByIdAndUpdate(id, \x7b averageCost: undefined \x7d)` is stripped to a no-op by
Mongoose instead of clearing the field as the claim (and the code's own comment) require. -/
theorem averageCost_roundtrip_stale_after_last_delete :
    createCourse ⟨[⟨1, 9, "Devworks", none⟩], []⟩ ⟨7, 1, 8000⟩
      = ⟨[⟨1, 9, "Devworks", some 8000⟩], [⟨7, 1, 8000⟩]⟩
    ∧ deleteCourseById ⟨[⟨1, 9, "Devworks", some 8000⟩], [⟨7, 1, 8000⟩]⟩ 7
      = ⟨[⟨1, 9, "Devworks", some 8000⟩], []⟩
    ∧ aggregateAverageCost ([] : List CourseDoc) 1 = none := by
  refine ⟨?_, ?_, rfl⟩ <;>
  · norm_num [createCourse, deleteCourseById, getAverageCost, aggregateAverageCost,
      findByIdAndUpdateAverageCost, List.find?, List.eraseP, List.filter]

/-- Claim C4, evaluated at the failing input: the success path persists only the sha256 hash
of the token plus a 10-minute expiry and emails the plaintext; but when the email send fails,
`clearPasswordResetFields` passes `undefined` values, which Mongoose strips from the update, so
the stored hash and expiry remain set instead of being rolled back to the unset state. -/
theorem forgotPassword_rollback_is_noop :
    (forgotPassword (fun s => "sha256(" ++ s ++ ")") 0 "tok" true
        [⟨1, "Jo", "jo@x.com", "user", "HASH", none, none⟩] "jo@x.com"
      = ⟨200, "Email sent",
          [⟨1, "Jo", "jo@x.com", "user", "HASH", some "sha256(tok)", some 600000⟩],
          some "tok"⟩)
    ∧ (forgotPassword (fun s => "sha256(" ++ s ++ ")") 0 "tok" false
        [⟨1, "Jo", "jo@x.com", "user", "HASH", none, none⟩] "jo@x.com"
      = ⟨500, "Email could not be sent",
          [⟨1, "Jo", "jo@x.com", "user", "HASH", some "sha256(tok)", some 600000⟩],
          none⟩) := by
  decide

/-- Claim C5: a reset-token lookup matches only a user whose stored hash equals the submitted
hash and whose expiry is strictly in the future; when every stored expiry has passed, the
reset request is answered 400 "Invalid or expired token" and the users collection is unchanged
(no password change), even if the hash matches. -/
theorem resetPassword_expired_token_rejected
    (sha256 bcryptHash : String → String) (now : Int) (us : List UserDoc)
    (resettoken newPassword : String)
    (htok : resettoken ≠ "")
    (hexpired : ∀ u ∈ us,
        (match u.resetPasswordExpire with | some e => e ≤ now | none => True)) :
    resetPassword sha256 bcryptHash now us resettoken newPassword
      = ⟨400, some "Invalid or expired token", us⟩
    ∧ ∀ (vs : List UserDoc) (hash : String) (u : UserDoc),
        getUserByValidResetToken vs hash now = some u →
          u.resetPasswordToken = some hash ∧ ∃ e, u.resetPasswordExpire = some e ∧ now < e := by
  constructor
  · have hnone : getUserByValidResetToken us (sha256 resettoken) now = none := by
      apply List.find?_eq_none.mpr
      intro u hu
      have h1 := hexpired u hu
      cases he : u.resetPasswordExpire with
      | none => simp [he]
      | some e =>
        rw [he] at h1
        simp only [he, Bool.and_eq_true, decide_eq_true_eq, not_and]
        intro _
        omega
    simp [resetPassword, htok, hnone]
  · intro vs hash u hfind
    have hp := List.find?_some hfind
    cases hb : u.resetPasswordExpire with
    | none => rw [hb] at hp; simp at hp
    | some e =>
      rw [hb] at hp
      simp only [Bool.and_eq_true, decide_eq_true_eq] at hp
      exact ⟨hp.1, e, rfl, hp.2⟩

/-- Witness for C5: the stored hash equals the hash of the submitted token but the expiry
(1000) is not strictly after `now = 1000`, so the request is rejected with 400 and the user is
unchanged. -/
theorem resetPassword_expired_token_rejected_witness :
    resetPassword (fun s => "sha256(" ++ s ++ ")") (fun s => "bcrypt(" ++ s ++ ")") 1000
        [⟨1, "Jo", "jo@x.com", "user", "H", some "sha256(tok)", some 1000⟩] "tok" "newpass123"
      = ⟨400, some "Invalid or expired token",
          [⟨1, "Jo", "jo@x.com", "user", "H", some "sha256(tok)", some 1000⟩]⟩ := by
  exact (resetPassword_expired_token_rejected (fun s => "sha256(" ++ s ++ ")")
    (fun s => "bcrypt(" ++ s ++ ")") 1000
    [⟨1, "Jo", "jo@x.com", "user", "H", some "sha256(tok)", some 1000⟩]
    "tok" "newpass123" (by decide)
    (by
      intro u hu
      rw [List.mem_singleton] at hu
      subst hu
      exact le_refl (1000 : Int))).1

/-- Claim C6: a login with an email matching no user and a login with an existing email but a
non-matching password produce the same response — 401, success false, error "Invalid
credentials", no token — so a failing response does not reveal whether the email exists. -/
theorem login_failure_indistinguishable
    (bcryptCompare : String → String → Bool) (signJwt : Nat → String)
    (us : List UserDoc) (emailA pwdA emailB pwdB : String) (u : UserDoc)
    (hA : getUserByEmail us emailA = none)
    (hB : getUserByEmail us emailB = some u)
    (hpw : bcryptCompare pwdB u.password = false) :
    login bcryptCompare signJwt us emailA pwdA = login bcryptCompare signJwt us emailB pwdB
    ∧ login bcryptCompare signJwt us emailA pwdA
        = ⟨401, false, some "Invalid credentials", none⟩ := by
  constructor <;> simp [login, hA, hB, hpw]

/-- Witness for C6: with one stored user, an unknown email and a known email with a wrong
password yield identical responses. -/
theorem login_failure_indistinguishable_witness :
    login (fun _ _ => false) (fun _ => "jwt")
        [⟨1, "Jo", "jo@x.com", "user", "H", none, none⟩] "zz@x.com" "p1"
      = login (fun _ _ => false) (fun _ => "jwt")
        [⟨1, "Jo", "jo@x.com", "user", "H", none, none⟩] "jo@x.com" "p2" := by
  exact (login_failure_indistinguishable (fun _ _ => false) (fun _ => "jwt")
    [⟨1, "Jo", "jo@x.com", "user", "H", none, none⟩] "zz@x.com" "p1" "jo@x.com" "p2"
    ⟨1, "Jo", "jo@x.com", "user", "H", none, none⟩ (by decide) (by decide) rfl).1

/-- Claim C7, evaluated at the failing input: registering with name "Jo", email "jo@x.com",
password "123456" answers 201 with a token, but the user object in the response still carries
a password field (the bcrypt hash): `select: false` hides the path only from query
projections, not from the freshly saved document that `register` serializes. -/
theorem register_includes_hashed_password_field :
    register (fun s => "bcrypt(" ++ s ++ ")") (fun i => "jwt" ++ toString i) 1
        { name := some "Jo", email := some "jo@x.com", password := some "123456" }
      = ⟨201, true, some ⟨1, "Jo", "jo@x.com", "user", some "bcrypt(123456)"⟩,
          some "jwt1", none⟩
    ∧ (register (fun s => "bcrypt(" ++ s ++ ")") (fun i => "jwt" ++ toString i) 1
        { name := some "Jo", email := some "jo@x.com", password := some "123456" }).user.map
          (fun u => u.password)
      ≠ some none := by
  decide

/-- A list containing an entry outside the career enum makes the per-element check of the
`CreateBootcampDTO` constructor throw. -/
theorem checkCareers_error_of_invalid {cs : List String} {c : String}
    (hmem : c ∈ cs) (hbad : c ∉ careerValues) : ∃ e, checkCareers cs = Except.error e := by
  induction cs with
  | nil => cases hmem
  | cons hd tl ih =>
    by_cases hhd : hd ∈ careerValues
    · rcases List.mem_cons.mp hmem with rfl | hmem2
      · exact absurd hhd hbad
      · simpa [checkCareers, hhd] using ih hmem2
    · exact ⟨invalidCareerMessage hd, by simp [checkCareers, hhd]⟩

/-- Counterexample to C8 as stated: for the body with careers
`["Underwater Basket Weaving"]` the DTO does throw a message naming the value, but the
controller's catch discards it and forwards an `ErrorResponse`, which carries no `message`
property, so the error middleware answers 400 with the fallback body "Server Error" — a
message that does not contain the invalid career value. -/
theorem addBootcamp_invalid_career_message_not_named :
    mkCreateBootcampDTO
        ⟨some "Devworks", some "A bootcamp", some "123 Main St",
          some ["Underwater Basket Weaving"]⟩
      = Except.error "Invalid career: \"Underwater Basket Weaving\". Must be one of: Web Development, Mobile Development, UI/UX, Data Science, Business, Other"
    ∧ addBootcampCtrl
        ⟨some "Devworks", some "A bootcamp", some "123 Main St",
          some ["Underwater Basket Weaving"]⟩
      = ⟨400, false, some "Server Error", none⟩
    ∧ containsSubstring "Underwater Basket Weaving" "Server Error" = false := by
  decide

/-- Claim C8 as amended: a create-bootcamp body whose other required fields are valid but
whose careers array contains a value outside the enum is rejected with status 400, but the
error message never names the invalid value: the DTO's value-naming message is discarded by
the controller's catch, and the `ErrorResponse` it forwards instead carries its text in
`.error` with no `message` property, so the error middleware renders the fallback body
"Server Error". -/
theorem addBootcamp_invalid_career_rejected_generic_message
    (name desc addr : String) (cs : List String) (c : String)
    (hn1 : (jsTrim name).length ≠ 0) (hn2 : ¬ (jsTrim name).length > 50)
    (hd1 : (jsTrim desc).length ≠ 0) (hd2 : ¬ (jsTrim desc).length > 165)
    (ha1 : (jsTrim addr).length ≠ 0)
    (hmem : c ∈ cs) (hbad : c ∉ careerValues) :
    (∃ e, mkCreateBootcampDTO ⟨some name, some desc, some addr, some cs⟩ = Except.error e)
    ∧ addBootcampCtrl ⟨some name, some desc, some addr, some cs⟩
        = ⟨400, false, some "Server Error", none⟩ := by
  obtain ⟨e, he⟩ := checkCareers_error_of_invalid hmem hbad
  have hne : cs.isEmpty = false := by
    cases cs
    · cases hmem
    · rfl
  have hmk : mkCreateBootcampDTO ⟨some name, some desc, some addr, some cs⟩
      = Except.error e := by
    simp [mkCreateBootcampDTO, hn1, hn2, hd1, hd2, ha1, hne, he]
  exact ⟨⟨e, hmk⟩, by simp [addBootcampCtrl, hmk, errorHandler, mkErrorResponse]⟩

/-- Witness for the amended C8. -/
theorem addBootcamp_invalid_career_rejected_generic_message_witness :
    addBootcampCtrl ⟨some "Devworks", some "d", some "a", some ["Underwater Basket Weaving"]⟩
      = ⟨400, false, some "Server Error", none⟩ := by
  exact (addBootcamp_invalid_career_rejected_generic_message "Devworks" "d" "a"
    ["Underwater Basket Weaving"] "Underwater Basket Weaving"
    (by decide) (by decide) (by decide) (by decide) (by decide)
    (by decide) (by decide)).2

/-- Claim C9: when the requester already owns at least one bootcamp, a non-admin
create-bootcamp request is answered 400 with no bootcamp created, while an admin with a valid
body still gets a 201 and the new bootcamp is appended (so admins may own several). -/
theorem addBootcamp_nonadmin_limited_to_one
    (db : List BootcampDoc) (newId userId : Nat) (role : String) (body : BootcampBody)
    (howned : (db.filter fun b => decide (b.user = userId)).length > 0) :
    (role ≠ "admin" →
      addBootcampWithOwnershipCheck db newId userId role body
        = ⟨400,
            some ("User with id " ++ toString userId ++ " has already published a bootcamp"),
            db⟩)
    ∧ (∀ dto, role = "admin" → mkCreateBootcampDTO body = Except.ok dto →
        addBootcampWithOwnershipCheck db newId userId role body
          = ⟨201, none, db ++ [⟨newId, userId, dto.name, none⟩]⟩) := by
  constructor
  · intro hrole
    simp [addBootcampWithOwnershipCheck, howned, hrole]
  · intro dto hrole hmk
    subst hrole
    simp [addBootcampWithOwnershipCheck, hmk]

/-- Witness for C9: user 42 (a publisher) already owns bootcamp 5, so a second upload is
rejected 400 and the collection is unchanged; the same state with role admin yields 201 and
the appended bootcamp. -/
theorem addBootcamp_nonadmin_limited_to_one_witness :
    (addBootcampWithOwnershipCheck [⟨5, 42, "First", none⟩] 6 42 "publisher"
        ⟨some "Second", some "d", some "a", some ["Other"]⟩
      = ⟨400,
          some ("User with id " ++ toString (42 : Nat) ++ " has already published a bootcamp"),
          [⟨5, 42, "First", none⟩]⟩)
    ∧ (addBootcampWithOwnershipCheck [⟨5, 42, "First", none⟩] 6 42 "admin"
        ⟨some "Second", some "d", some "a", some ["Other"]⟩
      = ⟨201, none, [⟨5, 42, "First", none⟩, ⟨6, 42, "Second", none⟩]⟩) := by
  constructor
  · exact (addBootcamp_nonadmin_limited_to_one [⟨5, 42, "First", none⟩] 6 42 "publisher"
      ⟨some "Second", some "d", some "a", some ["Other"]⟩ (by decide)).1 (by decide)
  · exact (addBootcamp_nonadmin_limited_to_one [⟨5, 42, "First", none⟩] 6 42 "admin"
      ⟨some "Second", some "d", some "a", some ["Other"]⟩ (by decide)).2
      ⟨"Second", "d", "a", ["Other"]⟩ rfl (by decide)

/-- Counterexample to C10 as stated: with a validly signed token for id 2 while only user 1 is
stored, `protect` does attach null and pass control on, but GET /auth/me then answers 500 (the
null dereference of `req.user.id`), not 200 with null data. -/
theorem protect_deleted_user_getMe_not_200 :
    protect (fun t => if t = "tok" then some 2 else none)
        [⟨1, "Jo", "jo@x.com", "user", "H", none, none⟩] (some "Bearer tok") none
      = ProtectOutcome.proceed none
    ∧ getMeRoute (fun t => if t = "tok" then some 2 else none)
        [⟨1, "Jo", "jo@x.com", "user", "H", none, none⟩] (some "Bearer tok") none
      = ⟨500, GetMeBody.err "Cannot read properties of null (reading id)"⟩
    ∧ getMeRoute (fun t => if t = "tok" then some 2 else none)
        [⟨1, "Jo", "jo@x.com", "user", "H", none, none⟩] (some "Bearer tok") none
      ≠ ⟨200, GetMeBody.data none⟩ := by
  decide

/-- Claim C10 as amended: for a validly signed token whose embedded id matches no stored user,
`protect` attaches null as the request's user and passes control on instead of rejecting with
401; GET /auth/me then throws a TypeError dereferencing the null user, surfaced by the
terminal error handler as a 500 (not a 200 with null data), and the role guard likewise throws
dereferencing the null user. -/
theorem protect_null_user_passthrough_500
    (verify : String → Option Nat) (users : List UserDoc) (t : String) (uid : Nat)
    (hv : verify t = some uid)
    (habsent : ∀ u ∈ users, u.id ≠ uid) :
    protect verify users none (some t) = ProtectOutcome.proceed none
    ∧ getMeRoute verify users none (some t)
        = ⟨500, GetMeBody.err "Cannot read properties of null (reading id)"⟩
    ∧ authorize ["publisher", "admin"] none
        = Except.error "Cannot read properties of null (reading role)" := by
  have hfind : (users.find? fun u => decide (u.id = uid)) = none := by
    apply List.find?_eq_none.mpr
    intro u hu
    simpa using habsent u hu
  refine ⟨?_, ?_, rfl⟩
  · simp [protect, hv, hfind]
  · simp [getMeRoute, protect, getMe, hv, hfind, errorHandler, mkJsError]

/-- Witness for the amended C10: a token verifying to the deleted id 2 via the cookie path. -/
theorem protect_null_user_passthrough_500_witness :
    protect (fun s => if s = "tok2" then some 2 else none)
        [⟨1, "Jo", "jo@x.com", "user", "H", none, none⟩] none (some "tok2")
      = ProtectOutcome.proceed none
    ∧ getMeRoute (fun s => if s = "tok2" then some 2 else none)
        [⟨1, "Jo", "jo@x.com", "user", "H", none, none⟩] none (some "tok2")
      = ⟨500, GetMeBody.err "Cannot read properties of null (reading id)"⟩
    ∧ authorize ["publisher", "admin"] none
      = Except.error "Cannot read properties of null (reading role)" := by
  exact protect_null_user_passthrough_500 (fun s => if s = "tok2" then some 2 else none)
    [⟨1, "Jo", "jo@x.com", "user", "H", none, none⟩] "tok2" 2 (by decide) (by decide)

end DevCamper
